import Mathlib

/-!
Shallow embedding of the VADAF inventory application (`src/aplicativo.py`)
and verification of its specification claims.

The application stores suppliers, products and stock movements in three
SQLite tables (`init_db`, lines 137-187).  All business logic lives in the
page functions `manage_products`, `manage_movements`, `manage_suppliers`
and `show_dashboard`.  We embed the persistent state as a `DBState` record
of three lists plus the AUTOINCREMENT counters, and each write operation as
a pure function on that state, translated branch-for-branch from the page
code.  SQL effects (`db_execute`) either succeed or return an error string;
we model the outcome with explicit result types, and for the movement page
with explicit success flags for the two `db_execute` calls so that the
partial-failure path (movement row written, stock update failed) is
expressible.  The `movements.date` column (server-assigned timestamp) plays
no role in any claim and is not modelled.
-/

/-- A row of the `suppliers` table (lines 143-152). -/
structure Supplier where
  id : Nat
  name : String
  nit : String
  contact_person : String
  email : String
  avg_delivery_time_days : Int
deriving DecidableEq, Repr

/-- A row of the `products` table (lines 155-171).  `quantity` is kept as an
unbounded integer: the schema itself has no CHECK forcing it non-negative,
so non-negativity is a property to prove, not an assumption of the type. -/
structure Product where
  id : Nat
  code : String
  name : String
  category : String
  shoe_type : String
  size : String
  color : String
  quantity : Int
  min_stock : Int
  location : String
  supplier_id : Option Nat
  unit_cost : Rat
deriving DecidableEq, Repr

/-- A row of the `movements` table (lines 174-184), minus the timestamp
column, which no claim mentions. -/
structure Movement where
  id : Nat
  product_id : Nat
  type : String
  quantity : Int
  notes : String
deriving DecidableEq, Repr

/-- The persistent database state: the three tables plus the AUTOINCREMENT
counters that assign fresh row ids. -/
structure DBState where
  suppliers : List Supplier
  products : List Product
  movements : List Movement
  next_supplier_id : Nat
  next_product_id : Nat
  next_movement_id : Nat
deriving DecidableEq, Repr

/-- The three allowed product categories, from the `CHECK(category IN ...)`
constraint (line 160) and the `categories` list of `manage_products`
(line 350). -/
def categories : List String :=
  ["Materia Prima", "Producto en Proceso", "Producto Terminado"]

/-- Errors surfaced by the catalog pages.  `validationError` is the
client-side required-field check, `constraintViolation` the
"UNIQUE constraint failed" branch, `checkViolation` any other SQLite
constraint error (e.g. the category CHECK), and `referentialConflict` the
products-still-reference-this-supplier guard of `manage_suppliers`. -/
inductive CatalogError where
  | validationError
  | constraintViolation
  | checkViolation
  | referentialConflict
deriving DecidableEq, Repr

/-- `UPDATE products SET quantity = ? WHERE id = ?` (lines 580-583): every
row whose id matches gets the new quantity, all other rows are untouched. -/
def update_quantity (l : List Product) (pid : Nat) (new_stock : Int) : List Product :=
  l.map (fun p => if p.id = pid then { p with quantity := new_stock } else p)

/-- Outcome of the movement-registration branch of `manage_movements`
(lines 560-592).  `updateStockFailed` is the partial-failure path: the
movement row was inserted but the stock UPDATE failed, and the page reports
it with its own distinct error message (line 590) — the spec's
`PartialCommit` condition.  Each error constructor carries the state the
database is left in only when that state differs from the input state. -/
inductive MovOutcome where
  | notFound
  | insufficientStock
  | insertFailed
  | updateStockFailed (s' : DBState)
  | committed (s' : DBState)
deriving DecidableEq, Repr

/-- The movement-registration logic of `manage_movements` (lines 560-592),
one branch per line of the source:
* the product is looked up by id (`product_dict`, `current_stock`);
* a `Salida` whose quantity exceeds current stock is rejected before
  anything is written (line 564);
* the movement INSERT (lines 568-571) may fail — `insert_ok = false` models
  `db_execute` returning an error, and a `type` outside the table's
  `CHECK(type IN ('Entrada','Salida'))` makes the INSERT itself fail;
* on INSERT success the stock UPDATE (lines 580-583) runs with
  `new_stock = current + q` for `Entrada` and `current - q` otherwise
  (lines 575-578); `update_ok = false` models that UPDATE failing, which
  leaves the movement row in place with the stock untouched (line 590). -/
def record_movement (s : DBState) (product_id : Nat) (movement_type : String)
    (quantity : Int) (notes : String) (insert_ok update_ok : Bool) : MovOutcome :=
  match s.products.find? (fun p => p.id = product_id) with
  | none => .notFound
  | some p =>
    if movement_type = "Salida" ∧ quantity > p.quantity then
      .insufficientStock
    else if ¬ (movement_type = "Entrada" ∨ movement_type = "Salida") then
      .insertFailed
    else if insert_ok = false then
      .insertFailed
    else
      let mv : Movement :=
        { id := s.next_movement_id, product_id := product_id,
          type := movement_type, quantity := quantity, notes := notes }
      let s_ins : DBState :=
        { s with movements := s.movements ++ [mv],
                 next_movement_id := s.next_movement_id + 1 }
      if update_ok = false then
        .updateStockFailed s_ins
      else
        let new_stock : Int :=
          if movement_type = "Entrada" then p.quantity + quantity
          else p.quantity - quantity
        .committed { s_ins with products := update_quantity s_ins.products product_id new_stock }

/-- One movement-form submission: product, type, quantity, note. -/
structure MovCall where
  product_id : Nat
  mtype : String
  quantity : Int
  notes : String
deriving DecidableEq, Repr

/-- The state the database is left in after one movement-form submission
with both `db_execute` calls succeeding: on any rejected submission the
page only displays an error and writes nothing. -/
def apply_mov (s : DBState) (c : MovCall) : DBState :=
  match record_movement s c.product_id c.mtype c.quantity c.notes true true with
  | .committed s' => s'
  | .updateStockFailed s' => s'
  | _ => s

/-- A sequence of movement-form submissions, applied left to right. -/
def apply_movs (s : DBState) (calls : List MovCall) : DBState :=
  calls.foldl apply_mov s

/-- The fields of the product-creation form of `manage_products`
(lines 355-393).  `supplier_id` is the result of the
`supplier_dict.get(supplier_name)` lookup (line 387), already resolved to
an optional id. -/
structure ProductFields where
  code : String
  name : String
  category : String
  shoe_type : String
  size : String
  color : String
  quantity : Int
  min_stock : Int
  location : String
  supplier_id : Option Nat
  unit_cost : Rat
deriving DecidableEq, Repr

/-- The product-creation branch of `manage_products` (lines 382-402):
* the page first rejects a submission with an empty required field
  (line 384; the numeric widgets always supply a value, so only the three
  text fields can be missing);
* the INSERT (lines 388-394) then fails against the schema: SQLite checks
  the `CHECK(category IN ...)` constraint before the UNIQUE index on
  `code`, and the page maps only "UNIQUE constraint failed" to the
  duplicate-code message (lines 399-402);
* otherwise the row is appended with the next AUTOINCREMENT id. -/
def create_product (s : DBState) (f : ProductFields) : Except CatalogError DBState :=
  if f.code = "" ∨ f.name = "" ∨ f.category = "" then
    .error .validationError
  else if ¬ f.category ∈ categories then
    .error .checkViolation
  else if s.products.any (fun p => p.code = f.code) then
    .error .constraintViolation
  else
    .ok { s with
          products := s.products ++
            [{ id := s.next_product_id, code := f.code, name := f.name,
               category := f.category, shoe_type := f.shoe_type, size := f.size,
               color := f.color, quantity := f.quantity, min_stock := f.min_stock,
               location := f.location, supplier_id := f.supplier_id,
               unit_cost := f.unit_cost }],
          next_product_id := s.next_product_id + 1 }

/-- The columns the inline table editor of `manage_products` may rewrite
(lines 503-515): all of a product's fields except `id`, `code` and the
supplier reference, `quantity` included. -/
structure UpdateFields where
  name : String
  category : String
  quantity : Int
  min_stock : Int
  unit_cost : Rat
  shoe_type : String
  size : String
  color : String
  location : String
deriving DecidableEq, Repr

/-- The per-row UPDATE issued by the inline editor of `manage_products`
(lines 502-515): `UPDATE products SET name, category, quantity, min_stock,
unit_cost, shoe_type, size, color, location WHERE id = ?`.  The page skips
rows whose editable fields are unchanged (lines 490-500), which leaves the
same state, so the unconditional form is equivalent. -/
def update_product (s : DBState) (pid : Nat) (f : UpdateFields) : DBState :=
  { s with products := s.products.map (fun p =>
      if p.id = pid then
        { p with name := f.name, category := f.category, quantity := f.quantity,
                 min_stock := f.min_stock, unit_cost := f.unit_cost,
                 shoe_type := f.shoe_type, size := f.size, color := f.color,
                 location := f.location }
      else p) }

/-- The per-row DELETE of the inline editor (line 476):
`DELETE FROM products WHERE id = ?`, unconditional — movement rows are not
checked (SQLite foreign keys are not enabled by the application). -/
def delete_product (s : DBState) (pid : Nat) : DBState :=
  { s with products := s.products.filter (fun p => ¬ p.id = pid) }

/-- The fields of the supplier forms of `manage_suppliers`
(lines 630-704). -/
structure SupplierFields where
  name : String
  nit : String
  contact_person : String
  email : String
  avg_delivery_time_days : Int
deriving DecidableEq, Repr

/-- The supplier-creation branch of `manage_suppliers` (lines 644-659):
empty name rejected by the page (line 645), duplicate `nit` rejected by
the UNIQUE index (lines 656-657), otherwise the row is appended. -/
def create_supplier (s : DBState) (f : SupplierFields) : Except CatalogError DBState :=
  if f.name = "" then
    .error .validationError
  else if s.suppliers.any (fun sp => sp.nit = f.nit) then
    .error .constraintViolation
  else
    .ok { s with
          suppliers := s.suppliers ++
            [{ id := s.next_supplier_id, name := f.name, nit := f.nit,
               contact_person := f.contact_person, email := f.email,
               avg_delivery_time_days := f.avg_delivery_time_days }],
          next_supplier_id := s.next_supplier_id + 1 }

/-- The supplier-update branch of `manage_suppliers` (lines 695-710):
empty name rejected (line 696), a `nit` colliding with a different
supplier rejected by the UNIQUE index, otherwise every field of the
matching row is replaced (lines 699-705). -/
def update_supplier (s : DBState) (sid : Nat) (f : SupplierFields) : Except CatalogError DBState :=
  if f.name = "" then
    .error .validationError
  else if s.suppliers.any (fun sp => ¬ sp.id = sid ∧ sp.nit = f.nit) then
    .error .constraintViolation
  else
    .ok { s with suppliers := s.suppliers.map (fun sp =>
          if sp.id = sid then
            { sp with name := f.name, nit := f.nit,
                      contact_person := f.contact_person, email := f.email,
                      avg_delivery_time_days := f.avg_delivery_time_days }
          else sp) }

/-- The supplier-deletion branch of `manage_suppliers` (lines 715-728):
the page counts the products referencing the supplier (line 717) and
refuses the deletion when the count is positive (lines 720-721); otherwise
it runs `DELETE FROM suppliers WHERE id = ?` (line 723). -/
def delete_supplier (s : DBState) (sid : Nat) : Except CatalogError DBState :=
  if (s.products.filter (fun p => p.supplier_id = some sid)).length > 0 then
    .error .referentialConflict
  else
    .ok { s with suppliers := s.suppliers.filter (fun sp => ¬ sp.id = sid) }

/-- Every state-changing operation the application exposes, one constructor
per write path of the page functions. -/
inductive Op where
  | opRecordMovement (product_id : Nat) (mtype : String) (quantity : Int) (notes : String)
  | opCreateProduct (f : ProductFields)
  | opUpdateProduct (pid : Nat) (f : UpdateFields)
  | opDeleteProduct (pid : Nat)
  | opCreateSupplier (f : SupplierFields)
  | opUpdateSupplier (sid : Nat) (f : SupplierFields)
  | opDeleteSupplier (sid : Nat)
deriving DecidableEq, Repr

/-- The state after one user operation; a rejected operation only displays
an error message and leaves the database as it was. -/
def apply_op (s : DBState) : Op → DBState
  | .opRecordMovement pid mtype q notes => apply_mov s ⟨pid, mtype, q, notes⟩
  | .opCreateProduct f => ((create_product s f).toOption).getD s
  | .opUpdateProduct pid f => update_product s pid f
  | .opDeleteProduct pid => delete_product s pid
  | .opCreateSupplier f => ((create_supplier s f).toOption).getD s
  | .opUpdateSupplier sid f => ((update_supplier s sid f).toOption).getD s
  | .opDeleteSupplier sid => ((delete_supplier s sid).toOption).getD s

/-- A sequence of user operations, applied left to right. -/
def apply_ops (s : DBState) (ops : List Op) : DBState :=
  ops.foldl apply_op s

/-- The derived stock-status classification of `show_dashboard`
(lines 226-231): `'Crítico' if quantity < min_stock else ('Bajo' if
quantity <= min_stock * 1.2 else 'Óptimo')`, with the threshold comparison
carried out exactly: `quantity ≤ min_stock · 1.2` over the rationals is
`5·quantity ≤ 6·min_stock` over the integers (see
`stock_status_middle_test` below). -/
def stock_status (quantity min_stock : Int) : String :=
  if quantity < min_stock then "Crítico"
  else if 5 * quantity ≤ 6 * min_stock then "Bajo"
  else "Óptimo"

/-- The regular-expression metacharacters of Python's `re` other than
`.`: a search term containing any of these (quantifiers, anchors,
classes, groups, alternation, escapes) is outside the fragment this file
models — see `regex_literal_dot_fragment`. -/
def regex_metachar (c : Char) : Bool :=
  c == '^' || c == '$' || c == '*' || c == '+' || c == '?' ||
  c == '\x7b' || c == '\x7d' || c == '[' || c == ']' ||
  c == '\\' || c == '|' || c == '(' || c == ')'

/-- The search terms whose regular-expression semantics this file models:
every character is either the `.` metacharacter or a literal ASCII
character that is not one of `re`'s other metacharacters.  For such terms
`re.search` degenerates to position-wise character matching with `.` as a
wildcard, which `regex_search_from` implements; terms outside this
fragment (quantifiers such as `ab*`, classes, groups, alternation, or
invalid patterns that raise `re.error`) are NOT modelled, and the C9
theorem is scoped by this predicate accordingly. -/
def regex_literal_dot_fragment (pat : String) : Bool :=
  pat.data.all (fun c => c == '.' || (!(regex_metachar c) && decide (c.toNat < 128)))

/-- One pattern character of the literal-plus-dot fragment against one
subject character: `.` matches any character except the newline (`re`'s
default, no DOTALL flag); any other character matches exactly itself.
The inputs are pre-lowercased by `str_contains_ci`. -/
def regex_char_match (pc c : Char) : Bool :=
  (pc == '.' && !(c == '\n')) || pc == c

/-- Match the whole pattern against a prefix of the subject. -/
def regex_match_here : List Char → List Char → Bool
  | [], _ => true
  | _ :: _, [] => false
  | pc :: pr, c :: cr => regex_char_match pc c && regex_match_here pr cr

/-- Match the pattern starting at any position of the subject, as
`re.search` does. -/
def regex_search_from (pat : List Char) : List Char → Bool
  | [] => regex_match_here pat []
  | c :: cr => regex_match_here pat (c :: cr) || regex_search_from pat cr

/-- The filter test `df['name'].str.contains(search_term, case=False,
na=False)` of `manage_products` (lines 430-431): a case-insensitive
regular-expression search of the term within the column value.  Faithful
to the program only for terms satisfying `regex_literal_dot_fragment`;
for other terms pandas runs the full regular-expression engine (or raises
`re.error` on invalid patterns), which is not modelled here.
Case-insensitivity (`re.IGNORECASE`) is modelled by ASCII-lowercasing
both sides, which agrees with `re` on ASCII case pairs; exotic Unicode
foldings (such as the Kelvin sign folding to `k`) are not modelled. -/
def str_contains_ci (s pat : String) : Bool :=
  regex_search_from (pat.data.map Char.toLower) (s.data.map Char.toLower)

/-- Literal match of the whole pattern against a prefix of the subject. -/
def spec_substr_here : List Char → List Char → Bool
  | [], _ => true
  | _ :: _, [] => false
  | a :: ar, b :: br => a == b && spec_substr_here ar br

/-- Literal match of the pattern at any position of the subject. -/
def spec_substr_from (pat : List Char) : List Char → Bool
  | [] => spec_substr_here pat []
  | c :: cr => spec_substr_here pat (c :: cr) || spec_substr_from pat cr

/-- Modelled from the spec's words for `list_products`: "text search is
case-insensitive substring match against name OR code".  This is the
spec-side matcher, for comparison with `str_contains_ci`, the matcher the
code implements. -/
def spec_substring_ci (s pat : String) : Bool :=
  spec_substr_from (pat.data.map Char.toLower) (s.data.map Char.toLower)

/-- The name ordering used by `ORDER BY p.name` of the product listing
query (line 416). -/
def product_name_le (a b : Product) : Prop :=
  a.name ≤ b.name

instance : DecidableRel product_name_le :=
  fun a b => inferInstanceAs (Decidable (a.name ≤ b.name))

/-- The product listing of `manage_products` (lines 410-433): the SELECT
orders the catalog by product name (line 416) and the page then keeps the
rows whose name or code matches the search term (pandas
`str.contains(search_term, case=False)`) and whose category is in the
selected set (`isin(filter_category)`).  The LEFT JOIN with suppliers only
adds a display column and is not modelled; the search matcher
`str_contains_ci` is faithful to pandas only on the
`regex_literal_dot_fragment` terms (see its doc comment). -/
def list_products (s : DBState) (search_term : String) (filter_category : List String) : List Product :=
  (s.products.insertionSort product_name_le).filter (fun p =>
    (str_contains_ci p.name search_term || str_contains_ci p.code search_term)
    && decide (p.category ∈ filter_category))

instance : IsTotal Product product_name_le :=
  ⟨fun a b => le_total a.name b.name⟩

instance : IsTrans Product product_name_le :=
  ⟨fun _ _ _ hab hbc => le_trans hab hbc⟩

/-- The operation kinds whose code writes `Product.quantity`: the ledger
UPDATE of `manage_movements` (lines 580-583) and the inline editor's row
UPDATE of `manage_products` (lines 503-515), whose SET list includes
`quantity`. -/
def quantity_writer : Op → Bool
  | .opRecordMovement _ _ _ _ => true
  | .opUpdateProduct _ _ => true
  | _ => false

/-- Between two states, no surviving product row changed its quantity: any
product of `s'` sharing an id with a product of `s` carries the same
quantity. -/
def quantity_untouched (s s' : DBState) : Prop :=
  ∀ p ∈ s.products, ∀ p' ∈ s'.products, p'.id = p.id → p'.quantity = p.quantity

instance (s s' : DBState) : Decidable (quantity_untouched s s') := by
  unfold quantity_untouched
  infer_instance

/-- The shape the AUTOINCREMENT primary key maintains: product ids are
pairwise distinct and smaller than the next id to be assigned. -/
def products_wf (s : DBState) : Prop :=
  s.products.Pairwise (fun a b => ¬ a.id = b.id) ∧
  ∀ p ∈ s.products, p.id < s.next_product_id

instance (s : DBState) : Decidable (products_wf s) := by
  unfold products_wf
  infer_instance

/-- A concrete product whose name `abc` matches the regular expression
`a.c` without containing it as a substring, used to separate the two
readings of the product search. -/
def searchSampleProduct : Product :=
  { id := 1, code := "Z1", name := "abc", category := "Materia Prima",
    shoe_type := "", size := "", color := "", quantity := 1,
    min_stock := 0, location := "", supplier_id := none, unit_cost := 0 }

/-- A concrete catalog holding only `searchSampleProduct`. -/
def searchSampleState : DBState :=
  { suppliers := [], products := [searchSampleProduct], movements := [],
    next_supplier_id := 1, next_product_id := 2, next_movement_id := 1 }

/-- Fields for the inline editor that change the sample product's quantity
from 5 to 7 and nothing else. -/
def bumpQuantityFields : UpdateFields :=
  { name := "Bota Industrial", category := "Materia Prima", quantity := 7,
    min_stock := 10, unit_cost := 0, shoe_type := "Bota", size := "40",
    color := "Negro", location := "A1" }

/-- A creation form that reuses the sample product's code `P1` but leaves
the required name empty. -/
def dupCodeEmptyName : ProductFields :=
  { code := "P1", name := "", category := "Materia Prima", shoe_type := "",
    size := "", color := "", quantity := 0, min_stock := 10, location := "",
    supplier_id := none, unit_cost := 0 }

/-- A fully valid creation form that reuses the sample product's code. -/
def dupCodeValid : ProductFields :=
  { code := "P1", name := "Botín Urbano", category := "Materia Prima",
    shoe_type := "Botín", size := "38", color := "Café", quantity := 3,
    min_stock := 5, location := "B2", supplier_id := none, unit_cost := 0 }

/-- A concrete product used by the witness theorems: id 1, code `P1`,
stock 5, minimum stock 10. -/
def sampleProduct : Product :=
  { id := 1, code := "P1", name := "Bota Industrial", category := "Materia Prima",
    shoe_type := "Bota", size := "40", color := "Negro", quantity := 5,
    min_stock := 10, location := "A1", supplier_id := some 1, unit_cost := 0 }

/-- A concrete supplier used by the witness theorems. -/
def sampleSupplier : Supplier :=
  { id := 1, name := "Cueros SA", nit := "900123", contact_person := "Ana",
    email := "ana@cueros.co", avg_delivery_time_days := 3 }

/-- A concrete database state used by the witness theorems: one supplier,
one product referencing it, no movements. -/
def sampleState : DBState :=
  { suppliers := [sampleSupplier], products := [sampleProduct], movements := [],
    next_supplier_id := 2, next_product_id := 2, next_movement_id := 1 }

/-- A concrete state whose only product references no supplier, used by
witness theorems that need an unreferenced supplier. -/
def sampleStateNoRef : DBState :=
  { suppliers := [sampleSupplier],
    products := [{ sampleProduct with supplier_id := none }], movements := [],
    next_supplier_id := 2, next_product_id := 2, next_movement_id := 1 }

/-- The middle test of `stock_status` is exactly the source comparison
`quantity <= min_stock * 1.2` read over the exact rationals: multiplying
both sides by 5 turns `quantity ≤ min_stock · 6/5` into
`5·quantity ≤ 6·min_stock`. -/
theorem stock_status_middle_test (quantity min_stock : Int) :
    5 * quantity ≤ 6 * min_stock ↔ (quantity : ℚ) ≤ (min_stock : ℚ) * 1.2 := by
  rw [show (1.2 : ℚ) = 6 / 5 by norm_num]
  constructor <;> intro h
  · have h' : (5 * quantity : ℚ) ≤ (6 * min_stock : ℚ) := by exact_mod_cast h
    linarith
  · have h' : (5 * quantity : ℚ) ≤ (6 * min_stock : ℚ) := by linarith
    exact_mod_cast h'

theorem find?_update_quantity {l : List Product} {pid : Nat} {p : Product} (n : Int)
    (h : l.find? (fun q => q.id = pid) = some p) :
    (update_quantity l pid n).find? (fun q => q.id = pid) = some { p with quantity := n } := by
  induction l with
  | nil => simp [List.find?] at h
  | cons a l ih =>
    unfold update_quantity at ih ⊢
    by_cases ha : a.id = pid
    · rw [List.find?_cons_of_pos _ (by simpa using ha)] at h
      cases h
      simp only [List.map_cons, if_pos ha]
      exact List.find?_cons_of_pos _ (by simpa using ha)
    · rw [List.find?_cons_of_neg _ (by simpa using ha)] at h
      simp only [List.map_cons, if_neg ha]
      rw [List.find?_cons_of_neg _ (by simpa using ha)]
      exact ih h

theorem mem_update_quantity {l : List Product} {pid : Nat} {n : Int} {p' : Product}
    (h : p' ∈ update_quantity l pid n) :
    p' ∈ l ∨ ∃ a ∈ l, p' = { a with quantity := n } := by
  unfold update_quantity at h
  rcases List.mem_map.mp h with ⟨a, ha, rfl⟩
  by_cases hid : a.id = pid
  · right; exact ⟨a, ha, by simp [if_pos hid]⟩
  · left; simpa [if_neg hid] using ha

theorem record_movement_entrada (s : DBState) (pid : Nat) (q : Int) (n : String)
    {p : Product} (hp : s.products.find? (fun x => x.id = pid) = some p) :
    record_movement s pid "Entrada" q n true true =
      .committed { s with
        products := update_quantity s.products pid (p.quantity + q),
        movements := s.movements ++
          [{ id := s.next_movement_id, product_id := pid,
             type := "Entrada", quantity := q, notes := n }],
        next_movement_id := s.next_movement_id + 1 } := by
  unfold record_movement
  rw [hp]
  simp

theorem record_movement_salida (s : DBState) (pid : Nat) (q : Int) (n : String)
    {p : Product} (hp : s.products.find? (fun x => x.id = pid) = some p)
    (hst : q ≤ p.quantity) :
    record_movement s pid "Salida" q n true true =
      .committed { s with
        products := update_quantity s.products pid (p.quantity - q),
        movements := s.movements ++
          [{ id := s.next_movement_id, product_id := pid,
             type := "Salida", quantity := q, notes := n }],
        next_movement_id := s.next_movement_id + 1 } := by
  unfold record_movement
  rw [hp]
  simp [not_lt.mpr hst]

theorem apply_mov_products (s : DBState) (c : MovCall) :
    (apply_mov s c).products = s.products ∨
    ∃ p, s.products.find? (fun x => x.id = c.product_id) = some p ∧
      ((c.mtype = "Entrada" ∧
        (apply_mov s c).products =
          update_quantity s.products c.product_id (p.quantity + c.quantity)) ∨
       (c.mtype = "Salida" ∧ c.quantity ≤ p.quantity ∧
        (apply_mov s c).products =
          update_quantity s.products c.product_id (p.quantity - c.quantity))) := by
  cases hfind : s.products.find? (fun x => x.id = c.product_id) with
  | none =>
    left
    unfold apply_mov record_movement
    rw [hfind]
  | some p =>
    by_cases h1 : c.mtype = "Salida" ∧ c.quantity > p.quantity
    · left
      unfold apply_mov record_movement
      rw [hfind]
      simp [h1]
    · by_cases hE : c.mtype = "Entrada"
      · right
        refine ⟨p, rfl, Or.inl ⟨hE, ?_⟩⟩
        unfold apply_mov record_movement
        rw [hfind]
        simp [h1, hE]
      · by_cases hS : c.mtype = "Salida"
        · right
          have hle : c.quantity ≤ p.quantity := by
            rcases not_and_or.mp h1 with h | h
            · exact absurd hS h
            · exact not_lt.mp h
          refine ⟨p, rfl, Or.inr ⟨hS, hle, ?_⟩⟩
          unfold apply_mov record_movement
          rw [hfind]
          simp [hS, hE, not_lt.mpr hle]
        · left
          unfold apply_mov record_movement
          rw [hfind]
          simp [hE, hS]

theorem apply_mov_nonneg {s : DBState} {c : MovCall}
    (h0 : ∀ p ∈ s.products, 0 ≤ p.quantity) (hq : 0 < c.quantity) :
    ∀ p' ∈ (apply_mov s c).products, 0 ≤ p'.quantity := by
  rcases apply_mov_products s c with h | ⟨p, hfind, hcase⟩
  · rw [h]; exact h0
  · have hp0 : 0 ≤ p.quantity := h0 p (List.mem_of_find?_eq_some hfind)
    rcases hcase with ⟨_, hprod⟩ | ⟨_, hle, hprod⟩ <;>
      rw [hprod] <;> intro p' hp' <;>
      rcases mem_update_quantity hp' with h | ⟨a, _, rfl⟩
    · exact h0 p' h
    · simpa using by omega
    · exact h0 p' h
    · simpa using by omega

theorem apply_mov_movements (s : DBState) (c : MovCall) :
    ∃ t, (apply_mov s c).movements = s.movements ++ t := by
  cases hfind : s.products.find? (fun x => x.id = c.product_id) with
  | none =>
    refine ⟨[], ?_⟩
    unfold apply_mov record_movement
    rw [hfind]
    simp
  | some p =>
    by_cases h1 : c.mtype = "Salida" ∧ c.quantity > p.quantity
    · refine ⟨[], ?_⟩
      unfold apply_mov record_movement
      rw [hfind]
      simp [h1]
    · by_cases h2 : c.mtype = "Entrada" ∨ c.mtype = "Salida"
      · refine ⟨[⟨s.next_movement_id, c.product_id, c.mtype, c.quantity, c.notes⟩], ?_⟩
        unfold apply_mov record_movement
        rw [hfind]
        simp [h1, h2]
      · refine ⟨[], ?_⟩
        unfold apply_mov record_movement
        rw [hfind]
        simp [h1, h2]

theorem apply_op_movements (s : DBState) (op : Op) :
    ∃ t, (apply_op s op).movements = s.movements ++ t := by
  cases op with
  | opRecordMovement pid mt q n => exact apply_mov_movements s ⟨pid, mt, q, n⟩
  | opCreateProduct f =>
    refine ⟨[], ?_⟩
    show ((create_product s f).toOption.getD s).movements = s.movements ++ []
    unfold create_product
    split_ifs <;> simp [Except.toOption]
  | opUpdateProduct pid f =>
    exact ⟨[], by simp [apply_op, update_product]⟩
  | opDeleteProduct pid =>
    exact ⟨[], by simp [apply_op, delete_product]⟩
  | opCreateSupplier f =>
    refine ⟨[], ?_⟩
    show ((create_supplier s f).toOption.getD s).movements = s.movements ++ []
    unfold create_supplier
    split_ifs <;> simp [Except.toOption]
  | opUpdateSupplier sid f =>
    refine ⟨[], ?_⟩
    show ((update_supplier s sid f).toOption.getD s).movements = s.movements ++ []
    unfold update_supplier
    split_ifs <;> simp [Except.toOption]
  | opDeleteSupplier sid =>
    refine ⟨[], ?_⟩
    show ((delete_supplier s sid).toOption.getD s).movements = s.movements ++ []
    unfold delete_supplier
    split_ifs <;> simp [Except.toOption]

theorem apply_ops_movements (ops : List Op) (s : DBState) :
    ∃ t, (apply_ops s ops).movements = s.movements ++ t := by
  induction ops generalizing s with
  | nil => exact ⟨[], by simp [apply_ops]⟩
  | cons op ops ih =>
    rcases apply_op_movements s op with ⟨t1, h1⟩
    rcases ih (apply_op s op) with ⟨t2, h2⟩
    refine ⟨t1 ++ t2, ?_⟩
    have : apply_ops s (op :: ops) = apply_ops (apply_op s op) ops := rfl
    rw [this, h2, h1, List.append_assoc]

theorem apply_ops_preserve_movements (ops : List Op) (s : DBState) :
    (apply_ops s ops).movements.take s.movements.length = s.movements := by
  rcases apply_ops_movements ops s with ⟨t, h⟩
  rw [h, List.take_left]

/-- C1: for every product and every quantity q, a `Salida` movement with
q strictly greater than the product's current quantity is rejected as
insufficient stock (`manage_movements`, line 564), and the database —
product quantities and movement history included — is exactly what it was
before the submission: no movement row is written, no quantity changes. -/
theorem c1_salida_insufficient_rejected (s : DBState) (pid : Nat) (q : Int) (n : String)
    {p : Product} (hp : s.products.find? (fun x => x.id = pid) = some p)
    (hq : q > p.quantity) :
    record_movement s pid "Salida" q n true true = .insufficientStock ∧
    apply_mov s ⟨pid, "Salida", q, n⟩ = s := by
  have hrec : record_movement s pid "Salida" q n true true = .insufficientStock := by
    unfold record_movement
    rw [hp]
    simp [hq]
  refine ⟨hrec, ?_⟩
  unfold apply_mov
  rw [hrec]

/-- Witness for C1: withdrawing 9 units from the sample product, which
holds 5, is rejected and leaves the state untouched. -/
theorem c1_witness :
    record_movement sampleState 1 "Salida" 9 "" true true = .insufficientStock ∧
    apply_mov sampleState ⟨1, "Salida", 9, ""⟩ = sampleState :=
  c1_salida_insufficient_rejected sampleState 1 9 "" (p := sampleProduct) (by decide) (by decide)

/-- C2: starting from a state where every product's quantity is
non-negative, any sequence of movement submissions with positive
quantities — in particular any sequence in which each call individually
passes the page's validation — leaves every product's quantity
non-negative: an `Entrada` adds a positive amount and a `Salida` is
only applied when it does not exceed the current stock (line 564). -/
theorem c2_quantity_never_negative (s : DBState) (calls : List MovCall)
    (h0 : ∀ p ∈ s.products, 0 ≤ p.quantity)
    (hq : ∀ c ∈ calls, 0 < c.quantity)
    (ht : ∀ c ∈ calls, c.mtype = "Entrada" ∨ c.mtype = "Salida") :
    ∀ p ∈ (apply_movs s calls).products, 0 ≤ p.quantity := by
  induction calls generalizing s with
  | nil => simpa [apply_movs] using h0
  | cons c cs ih =>
    have hstep := apply_mov_nonneg h0 (hq c (List.mem_cons_self c cs))
    have : apply_movs s (c :: cs) = apply_movs (apply_mov s c) cs := rfl
    rw [this]
    exact ih (apply_mov s c) hstep
      (fun d hd => hq d (List.mem_cons_of_mem c hd))
      (fun d hd => ht d (List.mem_cons_of_mem c hd))

/-- Witness for C2: an `Entrada` of 3 then a `Salida` of 7 on the sample
product (stock 5) leave its final quantity, 1, non-negative. -/
theorem c2_witness :
    0 ≤ ({ sampleProduct with quantity := 1 } : Product).quantity :=
  c2_quantity_never_negative sampleState [⟨1, "Entrada", 3, ""⟩, ⟨1, "Salida", 7, ""⟩]
    (by decide) (by decide) (by decide)
    { sampleProduct with quantity := 1 } (by decide)

/-- C3: for a product with non-negative stock, an `Entrada` of q > 0
followed by a `Salida` of q both succeed, restore the product's quantity
exactly, and append exactly two movement rows; and no operation the
application exposes ever updates or deletes an existing movement row —
after any further operation sequence the movement list still starts with
precisely the old rows. -/
theorem c3_entrada_salida_roundtrip (s : DBState) (pid : Nat) (q : Int) (n1 n2 : String)
    {p : Product} (hp : s.products.find? (fun x => x.id = pid) = some p)
    (h0 : 0 ≤ p.quantity) (_hq : 0 < q) :
    ∃ s1 s2,
      record_movement s pid "Entrada" q n1 true true = .committed s1 ∧
      record_movement s1 pid "Salida" q n2 true true = .committed s2 ∧
      (∃ p2, s2.products.find? (fun x => x.id = pid) = some p2 ∧
        p2.quantity = p.quantity) ∧
      (∃ m1 m2, s2.movements = s.movements ++ [m1, m2]) ∧
      (∀ ops : List Op,
        (apply_ops s2 ops).movements.take s2.movements.length = s2.movements) := by
  have h1 := record_movement_entrada s pid q n1 hp
  set s1 : DBState :=
    { s with
      products := update_quantity s.products pid (p.quantity + q),
      movements := s.movements ++
        [{ id := s.next_movement_id, product_id := pid,
           type := "Entrada", quantity := q, notes := n1 }],
      next_movement_id := s.next_movement_id + 1 } with hs1
  have hp1 : s1.products.find? (fun x => x.id = pid) =
      some { p with quantity := p.quantity + q } :=
    find?_update_quantity (p.quantity + q) hp
  have h2 := record_movement_salida s1 pid q n2 hp1 (by simp; omega)
  refine ⟨s1, _, h1, h2, ?_, ?_, ?_⟩
  · refine ⟨{ p with quantity := p.quantity + q - q }, ?_, by simp⟩
    simpa using find?_update_quantity (p.quantity + q - q) hp1
  · refine ⟨{ id := s.next_movement_id, product_id := pid,
              type := "Entrada", quantity := q, notes := n1 },
            { id := s.next_movement_id + 1, product_id := pid,
              type := "Salida", quantity := q, notes := n2 }, ?_⟩
    rw [hs1]
    simp
  · intro ops
    exact apply_ops_preserve_movements ops _

/-- Witness for C3: an `Entrada` of 4 then a `Salida` of 4 on the sample
product restore its quantity of 5 and append exactly two rows. -/
theorem c3_witness :
    ∃ s1 s2,
      record_movement sampleState 1 "Entrada" 4 "in" true true = .committed s1 ∧
      record_movement s1 1 "Salida" 4 "out" true true = .committed s2 ∧
      (∃ p2, s2.products.find? (fun x => x.id = 1) = some p2 ∧
        p2.quantity = sampleProduct.quantity) ∧
      (∃ m1 m2, s2.movements = sampleState.movements ++ [m1, m2]) ∧
      (∀ ops : List Op,
        (apply_ops s2 ops).movements.take s2.movements.length = s2.movements) :=
  c3_entrada_salida_roundtrip sampleState 1 4 "in" "out" (p := sampleProduct)
    (by decide) (by decide) (by decide)

/-- C4: when the movement INSERT succeeds but the stock UPDATE fails
(`db_execute` returning an error at lines 580-583 after the INSERT of
lines 568-571 went through), the page detects the failure and reports it
through its own distinct branch (line 590, "Error al actualizar stock") —
the `updateStockFailed` outcome, the spec's `PartialCommit` condition.
The movement row remains and no quantity changed, but the condition is
never silently folded into a success: the outcome is distinct from every
`committed` result. -/
theorem c4_partial_commit_reported (s : DBState) (pid : Nat) (mt : String)
    (q : Int) (n : String) {p : Product}
    (hp : s.products.find? (fun x => x.id = pid) = some p)
    (hok : ¬ (mt = "Salida" ∧ q > p.quantity))
    (hmt : mt = "Entrada" ∨ mt = "Salida") :
    record_movement s pid mt q n true false =
      .updateStockFailed
        { s with
          movements := s.movements ++
            [{ id := s.next_movement_id, product_id := pid,
               type := mt, quantity := q, notes := n }],
          next_movement_id := s.next_movement_id + 1 } ∧
    (∀ s'', MovOutcome.updateStockFailed
        { s with
          movements := s.movements ++
            [{ id := s.next_movement_id, product_id := pid,
               type := mt, quantity := q, notes := n }],
          next_movement_id := s.next_movement_id + 1 } ≠ .committed s'') := by
  refine ⟨?_, fun s'' h => by cases h⟩
  unfold record_movement
  rw [hp]
  rcases hmt with h | h <;> subst h
  · simp
  · have h' : ¬ q > p.quantity := fun hgt => hok ⟨rfl, hgt⟩
    simp [h']

/-- Witness for C4: an `Entrada` of 2 on the sample product whose stock
UPDATE fails leaves the movement row written, the products untouched, and
is reported as the distinct partial-commit outcome. -/
theorem c4_witness :
    record_movement sampleState 1 "Entrada" 2 "" true false =
      .updateStockFailed
        { sampleState with
          movements := sampleState.movements ++
            [{ id := 1, product_id := 1, type := "Entrada", quantity := 2, notes := "" }],
          next_movement_id := 2 } ∧
    (∀ s'', MovOutcome.updateStockFailed
        { sampleState with
          movements := sampleState.movements ++
            [{ id := 1, product_id := 1, type := "Entrada", quantity := 2, notes := "" }],
          next_movement_id := 2 } ≠ .committed s'') :=
  c4_partial_commit_reported sampleState 1 "Entrada" 2 "" (p := sampleProduct)
    (by decide) (by decide) (Or.inl rfl)

/-- C7: deleting a supplier that at least one product references fails
with the referential-conflict error and removes nothing
(`manage_suppliers`, lines 717-721); deleting an unreferenced supplier
succeeds and removes exactly the rows with that id (line 723). -/
theorem c7_delete_supplier_guard (s : DBState) (sid : Nat) :
    ((∃ p ∈ s.products, p.supplier_id = some sid) →
      delete_supplier s sid = .error .referentialConflict ∧
      apply_op s (.opDeleteSupplier sid) = s) ∧
    ((∀ p ∈ s.products, ¬ p.supplier_id = some sid) →
      delete_supplier s sid =
        .ok { s with suppliers := s.suppliers.filter (fun sp => ¬ sp.id = sid) } ∧
      ∀ sp ∈ (apply_op s (.opDeleteSupplier sid)).suppliers, ¬ sp.id = sid) := by
  constructor
  · rintro ⟨p, hpmem, hpsid⟩
    have hmem : p ∈ s.products.filter (fun x => x.supplier_id = some sid) :=
      List.mem_filter.mpr ⟨hpmem, by simp [hpsid]⟩
    have hlen : (s.products.filter (fun x => x.supplier_id = some sid)).length > 0 :=
      List.length_pos.mpr (List.ne_nil_of_mem hmem)
    have herr : delete_supplier s sid = .error .referentialConflict := by
      unfold delete_supplier
      exact if_pos hlen
    refine ⟨herr, ?_⟩
    show ((delete_supplier s sid).toOption.getD s) = s
    rw [herr]
    rfl
  · intro hall
    have hnil : s.products.filter (fun x => x.supplier_id = some sid) = [] := by
      rw [List.filter_eq_nil_iff]
      intro a ha
      simpa using hall a ha
    have hok : delete_supplier s sid =
        .ok { s with suppliers := s.suppliers.filter (fun sp => ¬ sp.id = sid) } := by
      unfold delete_supplier
      rw [hnil]
      rfl
    refine ⟨hok, ?_⟩
    show ∀ sp ∈ ((delete_supplier s sid).toOption.getD s).suppliers, ¬ sp.id = sid
    rw [hok]
    intro sp hsp
    simpa using (List.mem_filter.mp hsp).2

/-- Witness for C7: deleting supplier 1 while the sample product references
it is refused and changes nothing; deleting it from the state whose product
references no supplier succeeds and removes the record. -/
theorem c7_witness :
    (delete_supplier sampleState 1 = .error .referentialConflict ∧
      apply_op sampleState (.opDeleteSupplier 1) = sampleState) ∧
    (delete_supplier sampleStateNoRef 1 =
        .ok { sampleStateNoRef with
              suppliers := sampleStateNoRef.suppliers.filter (fun sp => ¬ sp.id = 1) } ∧
      ∀ sp ∈ (apply_op sampleStateNoRef (.opDeleteSupplier 1)).suppliers, ¬ sp.id = 1) :=
  ⟨(c7_delete_supplier_guard sampleState 1).1 ⟨sampleProduct, by decide, by decide⟩,
   (c7_delete_supplier_guard sampleStateNoRef 1).2 (by decide)⟩

/-- C8: the derived stock status of `show_dashboard` (lines 226-231) is
`Crítico` exactly when quantity < min_stock, `Bajo` exactly when
min_stock ≤ quantity ≤ min_stock · 1.2, and `Óptimo` in exactly the
remaining cases. -/
theorem c8_stock_status_thresholds (q ms : Int) :
    (stock_status q ms = "Crítico" ↔ q < ms) ∧
    (stock_status q ms = "Bajo" ↔ ms ≤ q ∧ (q : ℚ) ≤ (ms : ℚ) * 1.2) ∧
    (stock_status q ms = "Óptimo" ↔ ms ≤ q ∧ ¬ ((q : ℚ) ≤ (ms : ℚ) * 1.2)) := by
  simp only [← stock_status_middle_test]
  unfold stock_status
  split_ifs with h1 h2 <;> refine ⟨?_, ?_, ?_⟩ <;> simp <;> omega

/-- C10: a product with min_stock = 0 and non-negative quantity is never
classified `Crítico`; in particular quantity 0 with min_stock 0 is
classified `Bajo` (0 < 0 fails, 0 ≤ 0·1.2 holds). -/
theorem c10_min_stock_zero_never_critical (q : Int) (h : 0 ≤ q) :
    stock_status q 0 ≠ "Crítico" ∧ stock_status 0 0 = "Bajo" := by
  refine ⟨?_, by decide⟩
  unfold stock_status
  rw [if_neg (by omega)]
  split_ifs <;> decide

/-- Witness for C10: evaluated at quantity 0 (and also quantity 3). -/
theorem c10_witness :
    (stock_status 0 0 ≠ "Crítico" ∧ stock_status 0 0 = "Bajo") ∧
    (stock_status 3 0 ≠ "Crítico") :=
  ⟨c10_min_stock_zero_never_critical 0 (by decide),
   (c10_min_stock_zero_never_critical 3 (by decide)).1⟩

theorem eq_of_mem_pairwise_ne {l : List Product}
    (hpw : l.Pairwise (fun a b => ¬ a.id = b.id))
    {p p' : Product} (hp : p ∈ l) (hp' : p' ∈ l) (hid : p'.id = p.id) : p' = p := by
  induction l with
  | nil => cases hp
  | cons a l ih =>
    rcases List.pairwise_cons.mp hpw with ⟨ha, hl⟩
    rcases List.mem_cons.mp hp with rfl | hpl <;>
      rcases List.mem_cons.mp hp' with rfl | hpl'
    · rfl
    · exact absurd hid.symm (ha p' hpl')
    · exact absurd hid (ha p hpl)
    · exact ih hl hpl hpl'

theorem quantity_untouched_of_subset {s s' : DBState}
    (hpw : s.products.Pairwise (fun a b => ¬ a.id = b.id))
    (h : ∀ p' ∈ s'.products, p' ∈ s.products) : quantity_untouched s s' := by
  intro p hp p' hp' hid
  rw [eq_of_mem_pairwise_ne hpw hp (h p' hp') hid]

/-- C5 (amended): `Product.quantity` is written by exactly two operations —
the ledger's `record_movement` and the inline editor's product UPDATE
(`manage_products`, lines 503-515), which bypasses the ledger.  Every
other operation (product creation and deletion, all supplier operations)
leaves the quantity of every surviving product row unchanged. -/
theorem c5_only_ledger_and_editor_write_quantity (s : DBState) (op : Op)
    (hwf : products_wf s) (hop : quantity_writer op = false) :
    quantity_untouched s (apply_op s op) := by
  cases op with
  | opRecordMovement pid mt q n => simp [quantity_writer] at hop
  | opUpdateProduct pid f => simp [quantity_writer] at hop
  | opCreateProduct f =>
    intro p hp p' hp' hid
    have hstep : (apply_op s (.opCreateProduct f)).products = s.products ∨
        (apply_op s (.opCreateProduct f)).products = s.products ++
          [{ id := s.next_product_id, code := f.code, name := f.name,
             category := f.category, shoe_type := f.shoe_type, size := f.size,
             color := f.color, quantity := f.quantity, min_stock := f.min_stock,
             location := f.location, supplier_id := f.supplier_id,
             unit_cost := f.unit_cost }] := by
      show ((create_product s f).toOption.getD s).products = _ ∨
        ((create_product s f).toOption.getD s).products = _
      unfold create_product
      split_ifs <;> first
        | exact Or.inl rfl
        | exact Or.inr rfl
    rcases hstep with hprod | hprod
    · rw [hprod] at hp'
      rw [eq_of_mem_pairwise_ne hwf.1 hp hp' hid]
    · rw [hprod] at hp'
      rcases List.mem_append.mp hp' with h' | h'
      · rw [eq_of_mem_pairwise_ne hwf.1 hp h' hid]
      · have hnew : p'.id = s.next_product_id := by
          have := List.mem_singleton.mp h'
          rw [this]
        have := hwf.2 p hp
        omega
  | opDeleteProduct pid =>
    refine quantity_untouched_of_subset hwf.1 ?_
    intro p' hp'
    have : p' ∈ s.products.filter (fun x => ¬ x.id = pid) := hp'
    exact List.mem_of_mem_filter this
  | opCreateSupplier f =>
    refine quantity_untouched_of_subset hwf.1 ?_
    have : (apply_op s (.opCreateSupplier f)).products = s.products := by
      show ((create_supplier s f).toOption.getD s).products = _
      unfold create_supplier
      split_ifs <;> rfl
    rw [this]
    exact fun p' hp' => hp'
  | opUpdateSupplier sid f =>
    refine quantity_untouched_of_subset hwf.1 ?_
    have : (apply_op s (.opUpdateSupplier sid f)).products = s.products := by
      show ((update_supplier s sid f).toOption.getD s).products = _
      unfold update_supplier
      split_ifs <;> rfl
    rw [this]
    exact fun p' hp' => hp'
  | opDeleteSupplier sid =>
    refine quantity_untouched_of_subset hwf.1 ?_
    have : (apply_op s (.opDeleteSupplier sid)).products = s.products := by
      show ((delete_supplier s sid).toOption.getD s).products = _
      unfold delete_supplier
      split_ifs <;> rfl
    rw [this]
    exact fun p' hp' => hp'

/-- Counterexample to C5 as stated: the inline editor's product UPDATE —
an operation other than `record_movement` — changes the sample product's
quantity from 5 to 7 with no movement recorded, so `record_movement` is
not the only writer of `Product.quantity`. -/
theorem c5_counterexample :
    ¬ quantity_untouched sampleState
        (apply_op sampleState (.opUpdateProduct 1 bumpQuantityFields)) := by decide

/-- Witness for C5 (amended): deleting a product — a non-writer
operation — leaves every surviving quantity unchanged. -/
theorem c5_witness :
    quantity_untouched sampleState (apply_op sampleState (.opDeleteProduct 1)) :=
  c5_only_ledger_and_editor_write_quantity sampleState (.opDeleteProduct 1)
    (by decide) (by decide)

/-- C6 (amended): a `create_product` call whose code duplicates an
existing product's code always fails and inserts no row; the failure is
the duplicate-code `ConstraintViolation` whenever the submission passes
the checks that run first — the page's required-field validation
(line 384) and the schema's category CHECK — and is a `ValidationError`
or a check-constraint error otherwise. -/
theorem c6_duplicate_code_rejected (s : DBState) (f : ProductFields)
    (hdup : s.products.any (fun p => p.code = f.code) = true) :
    (∃ e, create_product s f = .error e) ∧
    apply_op s (.opCreateProduct f) = s ∧
    (¬ f.code = "" → ¬ f.name = "" → f.category ∈ categories →
      create_product s f = .error .constraintViolation) := by
  have hstate : ∀ e, create_product s f = .error e →
      apply_op s (.opCreateProduct f) = s := by
    intro e he
    show ((create_product s f).toOption.getD s) = s
    rw [he]
    rfl
  by_cases hv : f.code = "" ∨ f.name = "" ∨ f.category = ""
  · have he : create_product s f = .error .validationError := by
      unfold create_product
      rw [if_pos hv]
    refine ⟨⟨_, he⟩, hstate _ he, ?_⟩
    intro h1 h2 h3
    rcases hv with h | h | h
    · exact absurd h h1
    · exact absurd h h2
    · rw [h] at h3
      simp [categories] at h3
  · by_cases hc : f.category ∈ categories
    · have he : create_product s f = .error .constraintViolation := by
        unfold create_product
        rw [if_neg hv, if_neg (not_not_intro hc), if_pos hdup]
      exact ⟨⟨_, he⟩, hstate _ he, fun _ _ _ => he⟩
    · have he : create_product s f = .error .checkViolation := by
        unfold create_product
        rw [if_neg hv, if_pos hc]
      exact ⟨⟨_, he⟩, hstate _ he, fun _ _ h3 => absurd h3 hc⟩

/-- Counterexample to C6 as stated: submitting the existing code `P1`
with an empty name fails with the required-field `ValidationError`, not
with `ConstraintViolation`, even though the code already exists (the
page's validation runs before the INSERT ever reaches the UNIQUE index). -/
theorem c6_counterexample :
    (∃ p ∈ sampleState.products, p.code = dupCodeEmptyName.code) ∧
    create_product sampleState dupCodeEmptyName = .error .validationError ∧
    ¬ create_product sampleState dupCodeEmptyName = .error .constraintViolation := by
  refine ⟨⟨sampleProduct, by decide, by decide⟩, rfl, ?_⟩
  intro h
  rw [show create_product sampleState dupCodeEmptyName = .error .validationError from rfl] at h
  simp at h

/-- Witness for C6 (amended): a fully valid form reusing code `P1` fails
with `ConstraintViolation` and leaves the catalog unchanged. -/
theorem c6_witness :
    (∃ e, create_product sampleState dupCodeValid = .error e) ∧
    apply_op sampleState (.opCreateProduct dupCodeValid) = sampleState ∧
    create_product sampleState dupCodeValid = .error .constraintViolation :=
  ⟨(c6_duplicate_code_rejected sampleState dupCodeValid (by decide)).1,
   (c6_duplicate_code_rejected sampleState dupCodeValid (by decide)).2.1,
   (c6_duplicate_code_rejected sampleState dupCodeValid (by decide)).2.2
     (by decide) (by decide) (by decide)⟩

/-- Counterexample to C9 as stated: pandas `str.contains` interprets the
search term as a regular expression (its `regex` parameter defaults to
`True`), not as a literal substring.  Searching `a.c` returns the product
named `abc` although `a.c` is not a case-insensitive substring of either
its name or its code — the listing does not return exactly the
substring-matching products. -/
theorem c9_counterexample :
    searchSampleProduct ∈ list_products searchSampleState "a.c" ["Materia Prima"] ∧
    spec_substring_ci searchSampleProduct.name "a.c" = false ∧
    spec_substring_ci searchSampleProduct.code "a.c" = false := by decide

/-- C9 (amended): pandas `str.contains` treats the search term as a
regular expression, not a literal substring, so for any search string
made of literal ASCII characters and the `.` metacharacter — the
`regex_literal_dot_fragment`, where this file's matcher is faithful to
the program — `list_products` returns exactly the products whose
category is in the filter set and whose name OR code matches the term as
a case-insensitive regular expression (`.` a wildcard; substring match
only when the term has no `.`), ordered by product name.  Terms with
other metacharacters still go through the regular-expression engine and
are outside this theorem's scope. -/
theorem c9_list_products_filter_sorted (s : DBState) (term : String) (cats : List String)
    (_hterm : regex_literal_dot_fragment term = true) :
    (∀ p, p ∈ list_products s term cats ↔
      (p ∈ s.products ∧
       (str_contains_ci p.name term = true ∨ str_contains_ci p.code term = true) ∧
       p.category ∈ cats)) ∧
    List.Sorted product_name_le (list_products s term cats) := by
  constructor
  · intro p
    unfold list_products
    rw [List.mem_filter]
    have hperm : p ∈ s.products.insertionSort product_name_le ↔ p ∈ s.products :=
      (List.perm_insertionSort product_name_le s.products).mem_iff
    constructor
    · rintro ⟨hmem, hcond⟩
      simp only [Bool.and_eq_true, Bool.or_eq_true, decide_eq_true_eq] at hcond
      exact ⟨hperm.mp hmem, hcond.1, hcond.2⟩
    · rintro ⟨hmem, hcond, hcat⟩
      refine ⟨hperm.mpr hmem, ?_⟩
      simp only [Bool.and_eq_true, Bool.or_eq_true, decide_eq_true_eq]
      exact ⟨hcond, hcat⟩
  · exact (List.sorted_insertionSort product_name_le s.products).filter _

/-- Witness for C9 (amended): evaluated at the concrete catalog and the
fragment term `a.c` — the sample product is listed exactly because its
name matches the term as a regular expression, and the listing is sorted
by name. -/
theorem c9_witness :
    (searchSampleProduct ∈ list_products searchSampleState "a.c" ["Materia Prima"] ↔
      (searchSampleProduct ∈ searchSampleState.products ∧
       (str_contains_ci searchSampleProduct.name "a.c" = true ∨
        str_contains_ci searchSampleProduct.code "a.c" = true) ∧
       searchSampleProduct.category ∈ ["Materia Prima"])) ∧
    List.Sorted product_name_le (list_products searchSampleState "a.c" ["Materia Prima"]) :=
  ⟨(c9_list_products_filter_sorted searchSampleState "a.c" ["Materia Prima"] (by decide)).1
      searchSampleProduct,
   (c9_list_products_filter_sorted searchSampleState "a.c" ["Materia Prima"] (by decide)).2⟩
